import Mathlib

/-!
Shallow embedding of `telethon/client/chats.py` (chat-action controller,
participants iterator, admin-log iterator) and proofs about it.
-/

set_option maxHeartbeats 1000000
set_option maxRecDepth 8192

namespace TelethonChats

/-! ## Python primitives -/

/-- Python's built-in one-argument `round`: round half to even, modelled on the
rationals.  (CPython rounds binary floats; on the concrete inputs used below the
rational value is far from a tie, so the two agree.) -/
def pyRound (q : ℚ) : ℤ :=
  let f : ℤ := q.floor
  if q - f < 1/2 then f
  else if q - f > 1/2 then f + 1
  else if f % 2 = 0 then f else f + 1

/-- Python `str.lower`, restricted to the ASCII range (all inputs in this file
are ASCII, where CPython and `Char.toLower` agree). -/
def pyLower (s : String) : String := String.mk (s.data.map Char.toLower)

/-- Helper for Python's substring test: does the list start with the pattern? -/
def startsWithL : List Char → List Char → Bool
  | _, [] => true
  | [], _ :: _ => false
  | c :: cs, d :: ds => c == d && startsWithL cs ds

/-- Python's `needle in hay` on strings (contiguous-substring test), on
character lists. -/
def substrIn (needle : List Char) : List Char → Bool
  | [] => startsWithL [] needle
  | c :: t => startsWithL (c :: t) needle || substrIn needle t

/-- Python's `needle in hay` on strings. -/
def strIn (needle hay : String) : Bool := substrIn needle.data hay.data

/-! ## Entities

`utils.get_display_name` is an external collaborator (not under the core shown
here); a user's display name is therefore carried as a plain field.  The
`username` field models Python attribute access: `none` covers both an absent
`username` attribute and an attribute holding `None`. -/

structure TUser where
  id : ℕ
  displayName : String
  username : Option String
  deriving DecidableEq, Repr

/-! ## The local text-match predicate (`_ParticipantsIter._init`, lines 114-124)

The source builds, when a search string is present and either a filter was
given or the target is not a channel,

  `lambda ent: search in utils.get_display_name(ent).lower() or
               search in (getattr(ent, 'username', '') or None).lower()`

after lowercasing `search`. -/

/-- Value of the Python expression `getattr(ent, 'username', '') or None`:
a falsy username (absent attribute, `None`, or the empty string) yields
`None`, otherwise the string itself. -/
def usernameOrNone (ent : TUser) : Option String :=
  if ent.username.getD "" = "" then none else ent.username

/-- The source's local-match lambda.  Python's `or` short-circuits, so the
handle side is only evaluated when the display-name side is false; calling
`.lower()` on `None` raises `AttributeError`, modelled as `Except.error ()`. -/
def filter_entity_code (search : String) (ent : TUser) : Except Unit Bool :=
  if strIn search (pyLower ent.displayName) then .ok true
  else
    match usernameOrNone ent with
    | none => .error ()
    | some u => .ok (strIn search (pyLower u))

/-- The predicate as the claim states it: a total function, case-insensitive
substring match on display name or handle, with an absent or empty handle
contributing `false` on the handle side. -/
def filter_entity_claim (search : String) (ent : TUser) : Bool :=
  strIn search (pyLower ent.displayName) ||
    (match usernameOrNone ent with
     | none => false
     | some u => strIn search (pyLower u))

/-! ## Chat action kinds (`_ChatAction._str_mapping`, `ChatMethods.action`) -/

inductive ActionKind where
  | typing
  | chooseContact
  | gamePlay
  | geoLocation
  | recordAudio
  | recordRound
  | recordVideo
  | uploadAudio (progress : ℤ)
  | uploadRound (progress : ℤ)
  | uploadVideo (progress : ℤ)
  | uploadPhoto (progress : ℤ)
  | uploadDocument (progress : ℤ)
  | cancel
  deriving DecidableEq, Repr

/-- The `_str_mapping` table of `_ChatAction` (lines 15-37), tag to action
kind, including the aliases. -/
def strMapping : String → Option ActionKind
  | "typing" => some .typing
  | "contact" => some .chooseContact
  | "game" => some .gamePlay
  | "location" => some .geoLocation
  | "record-audio" => some .recordAudio
  | "record-voice" => some .recordAudio
  | "record-round" => some .recordRound
  | "record-video" => some .recordVideo
  | "audio" => some (.uploadAudio 1)
  | "voice" => some (.uploadAudio 1)
  | "round" => some (.uploadRound 1)
  | "video" => some (.uploadVideo 1)
  | "photo" => some (.uploadPhoto 1)
  | "document" => some (.uploadDocument 1)
  | "file" => some (.uploadDocument 1)
  | "song" => some (.uploadDocument 1)
  | "cancel" => some .cancel
  | _ => none

/-- Which action kinds carry a `progress` attribute (`hasattr(action,
'progress')`): exactly the upload variants constructed with a progress
argument in `_str_mapping`. -/
def hasProgressField : ActionKind → Bool
  | .uploadAudio _ | .uploadRound _ | .uploadVideo _
  | .uploadPhoto _ | .uploadDocument _ => true
  | _ => false

/-- Assignment to the `progress` attribute of an action kind; kinds without
the attribute are unchanged (never reached by the source, which guards with
`hasattr`). -/
def setProgressField (a : ActionKind) (v : ℤ) : ActionKind :=
  match a with
  | .uploadAudio _ => .uploadAudio v
  | .uploadRound _ => .uploadRound v
  | .uploadVideo _ => .uploadVideo v
  | .uploadPhoto _ => .uploadPhoto v
  | .uploadDocument _ => .uploadDocument v
  | other => other

/-- The value the source stores in `_ChatAction.progress` (line 98):
`100 * round(current / total)`. -/
def progressCodeValue (current total : ℕ) : ℤ :=
  100 * pyRound ((current : ℚ) / (total : ℚ))

/-- The value the claim prescribes: `round(100 * current / total)`. -/
def progressSpecValue (current total : ℕ) : ℤ :=
  pyRound (100 * (current : ℚ) / (total : ℚ))

/-- `_ChatAction.progress(current, total)` (lines 96-98): if the action has a
progress attribute, set it to `100 * round(current / total)`. -/
def chatActionProgress (a : ActionKind) (current total : ℕ) : ActionKind :=
  if hasProgressField a then setProgressField a (progressCodeValue current total)
  else a

/-! ## Participants iterator (`_ParticipantsIter`) -/

/-- The `ChannelParticipantsFilter` family of `types` used by the iterator. -/
inductive PartFilter where
  | searchQ (q : String)
  | banned (q : String)
  | kicked (q : String)
  | contacts (q : String)
  | admins
  | bots
  | recent
  deriving DecidableEq, Repr

/-- A bare filter class, before instantiation. -/
inductive PartFilterClass where
  | searchQ
  | banned
  | kicked
  | contacts
  | admins
  | bots
  | recent
  deriving DecidableEq, Repr

/-- Lines 103-111: a filter passed as a class is instantiated, supplying an
empty query string for the variants that require one. -/
def resolveFilterClass : PartFilterClass → PartFilter
  | .searchQ => .searchQ ""
  | .banned => .banned ""
  | .kicked => .kicked ""
  | .contacts => .contacts ""
  | .admins => .admins
  | .bots => .bots
  | .recent => .recent

/-- A `GetParticipantsRequest` descriptor (channel field elided: all the
descriptors of one enumeration target the same resolved channel). -/
structure PartReq where
  filter : PartFilter
  offset : ℕ
  limit : ℕ
  hash : ℕ
  deriving DecidableEq, Repr

/-- The constant `_MAX_PARTICIPANTS_CHUNK_SIZE` (line 10). -/
def maxParticipantsChunkSize : ℕ := 200

/-- The characters of `string.ascii_lowercase`. -/
def asciiLower : List Char := "abcdefghijklmnopqrstuvwxyz".data

/-- Lines 138-153: the request descriptors built for a channel target.  With
`aggressive` and no filter, one search descriptor per character of `search`
(per letter of the lowercase alphabet when `search` is empty); otherwise a
single descriptor with the given filter or a search filter from `search`. -/
def buildChannelRequests (aggressive : Bool) (filter : Option PartFilter)
    (search : String) : List PartReq :=
  if aggressive && filter.isNone then
    (if search.isEmpty then asciiLower else search.data).map
      (fun c => { filter := .searchQ (String.mk [c]), offset := 0,
                  limit := maxParticipantsChunkSize, hash := 0 })
  else
    [{ filter := filter.getD (.searchQ search), offset := 0,
       limit := maxParticipantsChunkSize, hash := 0 }]

/-- The remote calls issued by the iterator, as observable events. -/
inductive RCall where
  | getFullChannel
  | getParticipantsBatch (reqs : List PartReq)
  deriving DecidableEq, Repr

/-- Outcome of `_ParticipantsIter._init` on a channel target. -/
structure ChannelInitResult where
  calls : List RCall
  stopped : Bool
  buffer : List TUser
  requests : List PartReq
  deriving DecidableEq, Repr

/-- Lines 129-153 of `_ParticipantsIter._init`, channel branch: fetch the
full-channel info (the total count), then raise `StopAsyncIteration` when the
limit is non-positive (`stopped := true`), otherwise build the request
descriptors.  The channel branch never appends to the buffer during
initialization. -/
def channelInit (limit : ℤ) (aggressive : Bool) (filter : Option PartFilter)
    (search : String) : ChannelInitResult :=
  if limit ≤ 0 then
    { calls := [.getFullChannel], stopped := true, buffer := [], requests := [] }
  else
    { calls := [.getFullChannel], stopped := false, buffer := [],
      requests := buildChannelRequests aggressive filter search }

/-- Modelled from the spec: the generic enumerator (`RequestIter`, which is
not under the shown core) treats an early-stop signal from `_init` as "already
fully materialized": the produced sequence is the buffer accumulated during
initialization and no chunk load is performed; otherwise chunk loading runs on
the prepared descriptors. -/
def enumeratorRun (ini : ChannelInitResult)
    (chunkLoads : List PartReq → List TUser × List RCall) :
    List TUser × List RCall :=
  if ini.stopped then (ini.buffer, ini.calls)
  else
    let r := chunkLoads ini.requests
    (ini.buffer ++ r.1, ini.calls ++ r.2)

/-! ## Participants chunk loading (`_ParticipantsIter._load_next_chunk`) -/

/-- A `ChannelParticipant` record (only the `user_id` field matters here). -/
structure Participant where
  user_id : ℕ
  deriving DecidableEq, Repr

/-- One entry of the batched response: the participant list plus the
auxiliary user list of a `channels.ChannelParticipants` result. -/
structure ChunkResult where
  users : List TUser
  participants : List Participant
  deriving DecidableEq, Repr

/-- Lookup in the Python dict `{user.id: user for user in users}` (for
duplicate ids the last entry wins), then indexing with a key. -/
def dictLookup (us : List TUser) (pid : ℕ) : Option TUser :=
  us.reverse.find? (fun u => u.id == pid)

/-- The mutable state threaded through chunk loading: the seen-set of already
yielded ids and the buffer of produced users. -/
structure IterState where
  seen : List ℕ
  buffer : List TUser
  deriving DecidableEq, Repr

/-- Lines 212-220, the inner loop over one response's participants: look the
user up by id (a missing key is a `KeyError`, modelled by the `false` flag,
which aborts the load), skip entries failing the local predicate or already
seen, otherwise record the id as seen and append the user to the buffer. -/
def processParticipants (p : TUser → Bool) (users : List TUser) :
    List Participant → IterState → IterState × Bool
  | [], st => (st, true)
  | part :: rest, st =>
    match dictLookup users part.user_id with
    | none => (st, false)
    | some user =>
      if p user = false ∨ user.id ∈ st.seen then
        processParticipants p users rest st
      else
        processParticipants p users rest
          { seen := part.user_id :: st.seen, buffer := st.buffer ++ [user] }

/-- Lines 204-220, the loop `for i in reversed(range(len(self.requests)))`
over request/response pairs: responses are processed from the last index to
the first; a response with no users drops its request, otherwise the request's
offset advances by the number of returned participants and the participants
are folded into the state.  The `Bool` is false when a `KeyError` aborted the
load (which also stops the processing of the earlier indices). -/
def loadChunkStep (p : TUser → Bool) :
    List (PartReq × ChunkResult) → IterState → List PartReq × IterState × Bool
  | [], st => ([], st, true)
  | (req, res) :: rest, st =>
    match loadChunkStep p rest st with
    | (reqs, st1, false) => (reqs, st1, false)
    | (reqs, st1, true) =>
      if res.users.isEmpty then (reqs, st1, true)
      else
        let pr := processParticipants p res.users res.participants st1
        ({ req with offset := req.offset + res.participants.length } :: reqs,
         pr.1, pr.2)

/-- A whole enumeration: at each chunk load the environment supplies the
response list for the currently pending requests (batch order preserved, so
the pairing is positional); the run ends when the response schedule is spent
or a `KeyError` aborts it. -/
def runLoadChunks (p : TUser → Bool) :
    List (List ChunkResult) → List PartReq → IterState → IterState
  | [], _, st => st
  | results :: more, reqs, st =>
    match loadChunkStep p (reqs.zip results) st with
    | (reqs1, st1, true) => runLoadChunks p more reqs1 st1
    | (_, st1, false) => st1

/-- The invariant maintained by chunk loading: buffer ids are duplicate-free,
every buffered user passed the local predicate, and every buffered id is in
the seen-set. -/
def chunkInv (p : TUser → Bool) (st : IterState) : Prop :=
  (st.buffer.map TUser.id).Nodup ∧
    (∀ u ∈ st.buffer, p u = true) ∧
    (∀ u ∈ st.buffer, u.id ∈ st.seen)

/-! ## Admin-log iterator (`_AdminLogIter`) -/

/-- The fourteen external category flags of `iter_admin_log`, each `none` when
left unset (Python `None`). -/
structure AdminLogFlags where
  join : Option Bool
  leave : Option Bool
  invite : Option Bool
  restrict : Option Bool
  unrestrict : Option Bool
  ban : Option Bool
  unban : Option Bool
  promote : Option Bool
  demote : Option Bool
  info : Option Bool
  settings : Option Bool
  pinned : Option Bool
  edit : Option Bool
  delete : Option Bool
  deriving DecidableEq, Repr

/-- The service-side `ChannelAdminLogEventsFilter` with its own flag names. -/
structure EventsFilter where
  join : Option Bool
  leave : Option Bool
  invite : Option Bool
  ban : Option Bool
  unban : Option Bool
  kick : Option Bool
  unkick : Option Bool
  promote : Option Bool
  demote : Option Bool
  info : Option Bool
  settings : Option Bool
  pinned : Option Bool
  edit : Option Bool
  delete : Option Bool
  deriving DecidableEq, Repr

/-- Python truthiness of an optional boolean flag. -/
def flagTruthy : Option Bool → Bool
  | some true => true
  | _ => false

/-- The `any(...)` test of line 229-230. -/
def anyFlagSet (f : AdminLogFlags) : Bool :=
  flagTruthy f.join || flagTruthy f.leave || flagTruthy f.invite ||
  flagTruthy f.restrict || flagTruthy f.unrestrict || flagTruthy f.ban ||
  flagTruthy f.unban || flagTruthy f.promote || flagTruthy f.demote ||
  flagTruthy f.info || flagTruthy f.settings || flagTruthy f.pinned ||
  flagTruthy f.edit || flagTruthy f.delete

/-- Lines 229-238 of `_AdminLogIter._init`: when at least one flag is truthy,
build the combined filter, translating the external names to the service's
(`ban := restrict`, `unban := unrestrict`, `kick := ban`, `unkick := unban`);
otherwise no filter. -/
def buildEventsFilter (f : AdminLogFlags) : Option EventsFilter :=
  if anyFlagSet f then
    some { join := f.join, leave := f.leave, invite := f.invite,
           ban := f.restrict, unban := f.unrestrict, kick := f.ban,
           unkick := f.unban, promote := f.promote, demote := f.demote,
           info := f.info, settings := f.settings, pinned := f.pinned,
           edit := f.edit, delete := f.delete }
  else none

/-- An admin-log event (only its id matters to the cursor logic). -/
structure LogEvent where
  id : ℤ
  deriving DecidableEq, Repr

/-- The mutable fields of the `GetAdminLogRequest` descriptor. -/
structure AdminLogRequest where
  q : String
  min_id : ℤ
  max_id : ℤ
  limit : ℕ
  deriving DecidableEq, Repr

/-- The iterator state for `_AdminLogIter._load_next_chunk`: the request
descriptor, the remaining item count `left` from the generic enumerator, and
the buffer of produced event ids. -/
structure AdminLogState where
  request : AdminLogRequest
  left : ℕ
  buffer : List ℤ
  deriving DecidableEq, Repr

/-- The constant `_MAX_ADMIN_LOG_CHUNK_SIZE` (line 11). -/
def maxAdminLogChunkSize : ℕ := 100

/-- Python's `min((e.id for e in events), default=0)` (line 261). -/
def minIdOrZero (events : List LogEvent) : ℤ :=
  match events.map LogEvent.id with
  | [] => 0
  | x :: xs => xs.foldl min x

/-- Lines 255-279 of `_AdminLogIter._load_next_chunk`: set the request limit
to `min(left, 100)`, issue the call (the response's events come in as the
argument), lower `max_id` to the minimum event id of the batch (0 when
empty), append every event to the buffer, and report exhaustion exactly when
the batch is smaller than the just-requested limit. -/
def adminLogLoadChunk (st : AdminLogState) (events : List LogEvent) :
    AdminLogState × Bool :=
  let lim := min st.left maxAdminLogChunkSize
  let st1 : AdminLogState :=
    { request := { st.request with limit := lim, max_id := minIdOrZero events },
      left := st.left,
      buffer := st.buffer ++ events.map LogEvent.id }
  (st1, events.length < lim)

/-! ## Action resolution (`ChatMethods.action`, lines 535-553) -/

/-- The crc32 constant `0x20b2cc21` identifying the `SendMessageAction`
family (`SUBCLASS_OF_ID`). -/
def sendMessageActionId : ℕ := 0x20b2cc21

/-- The argument shapes `action` can take: a string tag, an instance of some
TLObject family (carrying its `SUBCLASS_OF_ID` and, when it is an activity
action, its kind), a class object, or a non-TLObject value. -/
inductive ActionArg where
  | str (s : String)
  | inst (subclassId : ℕ) (k : ActionKind)
  | klass
  | outsider
  deriving DecidableEq, Repr

/-- The two successful outcomes of `ChatMethods.action`: a scoped controller
for the resolved kind, or (for the cancel variant) an immediate single-shot
`SetTypingRequest` with a cancel action. -/
inductive ActionOutcome where
  | controller (k : ActionKind)
  | directCancel
  deriving DecidableEq, Repr

/-- Lines 535-553: strings are resolved through `_str_mapping` after
lowercasing, a miss raising `ValueError`; non-TLObjects and instances outside
the `SendMessageAction` family raise `ValueError` (a class object raising the
instance-specific message); the cancel variant returns a direct request,
everything else a controller.  No remote call happens on any error path. -/
def resolveAction (a : ActionArg) : Except String ActionOutcome :=
  match a with
  | .str s =>
    match strMapping (pyLower s) with
    | none => .error "No such action"
    | some k => if k = .cancel then .ok .directCancel else .ok (.controller k)
  | .inst subclassId k =>
    if subclassId ≠ sendMessageActionId then .error "Cannot use as action"
    else if k = .cancel then .ok .directCancel else .ok (.controller k)
  | .klass => .error "You must pass an instance, not the class"
  | .outsider => .error "Cannot use as action"

/-! ## Controller scope exit (`_ChatAction.__aexit__` and `_update`) -/

/-- Observable events of the controller's background task and scope exit. -/
inductive ExitEv where
  | periodicSend (chat : ℕ) (k : ActionKind)
  | loopStopped
  | terminalCancel (chat : ℕ) (k : ActionKind)
  | taskStopped
  deriving DecidableEq, Repr

/-- The controller state after `__aenter__`: the resolved target, the
broadcast action kind, the configuration flags, and the task bookkeeping. -/
structure ChatActionState where
  chat : ℕ
  action : ActionKind
  autoCancel : Bool
  running : Bool
  hasTask : Bool
  deriving DecidableEq, Repr

/-- Lines 91-94, the `except asyncio.CancelledError` arm of `_update`: after
the periodic loop has stopped, when `auto_cancel` is set, send one
`SetTypingRequest` carrying `SendMessageCancelAction()` to the resolved
target, regardless of the broadcast kind. -/
def updateOnCancelled (st : ChatActionState) : List ExitEv :=
  if st.autoCancel then [.terminalCancel st.chat .cancel] else []

/-- Modelled from the spec: the single-threaded cooperative scheduler
(`asyncio`, outside the shown core) delivers the cancellation at the task's
next suspension point inside the `while` loop, so `await self._task` in
`__aexit__` (lines 61-70) resumes the task, runs its cancellation handler to
completion, and returns only once the task is fully stopped, the expected
cancellation signal being suppressed.  The resulting exit behaviour: clear
the running flag and, when a task exists, cancel it and await it, producing
the loop-stop, the optional terminal cancel, and the task-stop in that
order. -/
def aexitRun (st : ChatActionState) : ChatActionState × List ExitEv :=
  let st1 := { st with running := false }
  if st1.hasTask then
    ({ st1 with hasTask := false },
      [.loopStopped] ++ updateOnCancelled st1 ++ [.taskStopped])
  else (st1, [])

/-- Recognizer for terminal-cancel events. -/
def isTerminalCancel : ExitEv → Bool
  | .terminalCancel _ _ => true
  | _ => false

/-- Recognizer for periodic-send events. -/
def isPeriodicSend : ExitEv → Bool
  | .periodicSend _ _ => true
  | _ => false

/-! ## Helper lemmas -/

lemma foldl_min_le_init : ∀ (xs : List ℤ) (x : ℤ), xs.foldl min x ≤ x := by
  intro xs
  induction xs with
  | nil => intro x; exact le_refl x
  | cons a l ih =>
    intro x
    calc List.foldl min (min x a) l ≤ min x a := ih (min x a)
    _ ≤ x := min_le_left x a

lemma foldl_min_le_mem : ∀ (xs : List ℤ) (x y : ℤ), y ∈ xs → xs.foldl min x ≤ y := by
  intro xs
  induction xs with
  | nil => intro x y hy; cases hy
  | cons a l ih =>
    intro x y hy
    rcases List.mem_cons.mp hy with h | h
    · subst h
      calc List.foldl min (min x y) l ≤ min x y := foldl_min_le_init l (min x y)
      _ ≤ y := min_le_right x y
    · exact ih (min x a) y h

lemma minIdOrZero_le (events : List LogEvent) (e : LogEvent) (he : e ∈ events) :
    minIdOrZero events ≤ e.id := by
  cases events with
  | nil => cases he
  | cons e0 rest =>
    have hrw : minIdOrZero (e0 :: rest) = (rest.map LogEvent.id).foldl min e0.id := by
      simp [minIdOrZero]
    rw [hrw]
    rcases List.mem_cons.mp he with h | h
    · subst h; exact foldl_min_le_init _ _
    · exact foldl_min_le_mem _ _ _ (List.mem_map_of_mem LogEvent.id h)

lemma dictLookup_id {us : List TUser} {pid : ℕ} {u : TUser}
    (h : dictLookup us pid = some u) : u.id = pid := by
  have := List.find?_some h
  simpa using this

lemma processParticipants_inv (p : TUser → Bool) (users : List TUser) :
    ∀ (parts : List Participant) (st : IterState), chunkInv p st →
      chunkInv p (processParticipants p users parts st).1 := by
  intro parts
  induction parts with
  | nil => intro st h; exact h
  | cons part rest ih =>
    intro st h
    rw [processParticipants]
    cases hd : dictLookup users part.user_id with
    | none => exact h
    | some user =>
      by_cases hc : p user = false ∨ user.id ∈ st.seen
      · simp only [hc, if_true]
        exact ih st h
      · simp only [hc, if_false]
        push_neg at hc
        have hptrue : p user = true := by
          cases hpu : p user with
          | false => exact absurd hpu hc.1
          | true => rfl
        have hid : user.id = part.user_id := dictLookup_id hd
        apply ih
        obtain ⟨hnd, hp, hseen⟩ := h
        refine ⟨?_, ?_, ?_⟩
        · have hforall : ∀ v ∈ st.buffer, ¬ v.id = user.id := by
            intro v hv hvid
            exact hc.2 (hvid ▸ hseen v hv)
          have : (st.buffer.map TUser.id ++ user.id :: List.map TUser.id []).Nodup := by
            rw [List.nodup_middle]
            simpa using ⟨hforall, hnd⟩
          simpa using this
        · intro u hu
          rcases List.mem_append.mp hu with h1 | h1
          · exact hp u h1
          · rcases List.mem_singleton.mp h1 with rfl
            exact hptrue
        · intro u hu
          rcases List.mem_append.mp hu with h1 | h1
          · exact List.mem_cons_of_mem _ (hseen u h1)
          · rcases List.mem_singleton.mp h1 with rfl
            rw [hid]
            exact List.mem_cons_self _ _

lemma loadChunkStep_inv (p : TUser → Bool) :
    ∀ (pairs : List (PartReq × ChunkResult)) (st : IterState),
      chunkInv p st → chunkInv p (loadChunkStep p pairs st).2.1 := by
  intro pairs
  induction pairs with
  | nil => intro st h; exact h
  | cons pr rest ih =>
    intro st h
    obtain ⟨req, res⟩ := pr
    rw [loadChunkStep]
    rcases hr : loadChunkStep p rest st with ⟨reqs, st1, ok⟩
    have hst1 : chunkInv p st1 := by
      have := ih st h
      rw [hr] at this
      exact this
    cases ok with
    | false => exact hst1
    | true =>
      by_cases he : res.users.isEmpty
      · simp only [he, if_true]
        exact hst1
      · simp only [he, if_false]
        exact processParticipants_inv p res.users res.participants st1 hst1

lemma runLoadChunks_inv (p : TUser → Bool) :
    ∀ (schedule : List (List ChunkResult)) (reqs : List PartReq) (st : IterState),
      chunkInv p st → chunkInv p (runLoadChunks p schedule reqs st) := by
  intro schedule
  induction schedule with
  | nil => intro reqs st h; exact h
  | cons results more ih =>
    intro reqs st h
    rw [runLoadChunks]
    rcases hr : loadChunkStep p (reqs.zip results) st with ⟨reqs1, st1, ok⟩
    have hst1 : chunkInv p st1 := by
      have := loadChunkStep_inv p (reqs.zip results) st h
      rw [hr] at this
      exact this
    cases ok with
    | false => exact hst1
    | true => exact ih reqs1 st1 hst1

/-! ## Claim theorems -/

/-- C1: the source's `progress(current, total)` stores
`100 * round(current / total)` in the progress field, not the claimed
`round(100 * current / total)`: at `current = 1, total = 3` on an upload-photo
action the code stores 0 while the claim prescribes 33. -/
theorem C1_progress_code_bug :
    chatActionProgress (.uploadPhoto 1) 1 3 = .uploadPhoto 0 ∧
    progressSpecValue 1 3 = 33 ∧
    progressCodeValue 1 3 ≠ progressSpecValue 1 3 := by
  have e1 : progressCodeValue 1 3 = 0 := by
    simp only [progressCodeValue, pyRound]
    norm_num [Rat.floor]
  have e2 : progressSpecValue 1 3 = 33 := by
    simp only [progressSpecValue, pyRound]
    norm_num [Rat.floor]
  refine ⟨?_, e2, ?_⟩
  · simp [chatActionProgress, hasProgressField, setProgressField, e1]
  · rw [e1, e2]; decide

/-- C2: the local-match predicate is not total: on an entity with no handle
whose display name does not contain the search string, the source evaluates
the handle side as `(getattr(ent, 'username', '') or None).lower()` and raises
`AttributeError` (modelled by `Except.error`), while the claim prescribes a
total predicate that is false there; with a matching handle present the
predicate does return true. -/
theorem C2_predicate_not_total :
    filter_entity_code "bob" { id := 1, displayName := "Alice", username := none }
        = .error () ∧
    filter_entity_claim "bob" { id := 1, displayName := "Alice", username := none }
        = false ∧
    filter_entity_code "bob" { id := 2, displayName := "Alice", username := some "bobcat" }
        = .ok true :=
  ⟨rfl, rfl, rfl⟩

/-- C3: whenever at least one category flag is truthy, the constructed
combined filter maps external restrict to the service's ban, external ban to
its kick, external unrestrict to its unban and external unban to its unkick,
all the remaining flags keeping their names, and unset flags passing through
as unset. -/
theorem C3_category_flag_mapping (f : AdminLogFlags) (h : anyFlagSet f = true) :
    buildEventsFilter f =
      some { join := f.join, leave := f.leave, invite := f.invite,
             ban := f.restrict, unban := f.unrestrict, kick := f.ban,
             unkick := f.unban, promote := f.promote, demote := f.demote,
             info := f.info, settings := f.settings, pinned := f.pinned,
             edit := f.edit, delete := f.delete } := by
  simp [buildEventsFilter, h]

/-- Witness for C3 at a concrete flag record with only restrict set. -/
theorem C3_category_flag_mapping_witness :
    buildEventsFilter
        { join := none, leave := none, invite := none, restrict := some true,
          unrestrict := none, ban := some false, unban := none, promote := none,
          demote := none, info := none, settings := none, pinned := none,
          edit := none, delete := none } =
      some { join := none, leave := none, invite := none, ban := some true,
             unban := none, kick := some false, unkick := none, promote := none,
             demote := none, info := none, settings := none, pinned := none,
             edit := none, delete := none } :=
  C3_category_flag_mapping
    { join := none, leave := none, invite := none, restrict := some true,
      unrestrict := none, ban := some false, unban := none, promote := none,
      demote := none, info := none, settings := none, pinned := none,
      edit := none, delete := none } (by decide)

/-- C4: after a chunk load the cursor's max_id equals the minimum event id of
the batch (0 when the batch is empty); consequently, when the next batch obeys
the request (all its ids below the new max_id), every id of the next batch is
at most every id of this batch. -/
theorem C4_maxid_cursor (st : AdminLogState) (events : List LogEvent) :
    (adminLogLoadChunk st events).1.request.max_id = minIdOrZero events ∧
    (∀ nextEvents : List LogEvent,
      (∀ e ∈ nextEvents, e.id < (adminLogLoadChunk st events).1.request.max_id) →
      ∀ e2 ∈ nextEvents, ∀ e1 ∈ events, e2.id ≤ e1.id) := by
  constructor
  · rfl
  · intro nextEvents hlt e2 h2 e1 h1
    have hx : e2.id < minIdOrZero events := hlt e2 h2
    have hy : minIdOrZero events ≤ e1.id := minIdOrZero_le events e1 h1
    omega

/-- Witness for C4 on a concrete batch with ids 5 and 3 followed by a batch
with id 2. -/
theorem C4_maxid_cursor_witness :
    (adminLogLoadChunk ⟨⟨"", 0, 0, 0⟩, 50, []⟩ [⟨5⟩, ⟨3⟩]).1.request.max_id
        = minIdOrZero [⟨5⟩, ⟨3⟩] ∧
    (∀ e2 ∈ ([⟨2⟩] : List LogEvent), ∀ e1 ∈ ([⟨5⟩, ⟨3⟩] : List LogEvent),
      e2.id ≤ e1.id) :=
  ⟨(C4_maxid_cursor ⟨⟨"", 0, 0, 0⟩, 50, []⟩ [⟨5⟩, ⟨3⟩]).1,
   (C4_maxid_cursor ⟨⟨"", 0, 0, 0⟩, 50, []⟩ [⟨5⟩, ⟨3⟩]).2 [⟨2⟩] (by decide)⟩

/-- C5: a chunk load sets the requested limit to `min(left, 100)` before the
call, and signals exhaustion exactly when the batch is smaller than that
just-requested limit. -/
theorem C5_limit_and_exhaustion (st : AdminLogState) (events : List LogEvent) :
    (adminLogLoadChunk st events).1.request.limit = min st.left 100 ∧
    ((adminLogLoadChunk st events).2 = true ↔
      events.length < min st.left 100) := by
  constructor
  · rfl
  · simp [adminLogLoadChunk, maxAdminLogChunkSize]

/-- C6: a channel membership enumeration with a non-positive limit produces
the empty sequence, and the only remote call issued is the full-channel
total-count fetch, whatever chunk loading would have done. -/
theorem C6_nonpositive_limit_empty (limit : ℤ) (aggressive : Bool)
    (filter : Option PartFilter) (search : String)
    (chunkLoads : List PartReq → List TUser × List RCall)
    (h : limit ≤ 0) :
    enumeratorRun (channelInit limit aggressive filter search) chunkLoads
      = ([], [RCall.getFullChannel]) := by
  simp [channelInit, enumeratorRun, h]

/-- Witness for C6 at limit 0. -/
theorem C6_nonpositive_limit_empty_witness :
    enumeratorRun (channelInit 0 true none "") (fun _ => ([], []))
      = ([], [RCall.getFullChannel]) :=
  C6_nonpositive_limit_empty 0 true none "" (fun _ => ([], [])) (by decide)

/-- C7: starting from the fresh state (empty seen-set, empty buffer), any run
of channel chunk loads yields a buffer whose ids are duplicate-free and all of
whose entries satisfy the local predicate established at initialization. -/
theorem C7_aggressive_dedup_and_filter (p : TUser → Bool)
    (schedule : List (List ChunkResult)) (reqs : List PartReq) :
    ((runLoadChunks p schedule reqs ⟨[], []⟩).buffer.map TUser.id).Nodup ∧
    ∀ u ∈ (runLoadChunks p schedule reqs ⟨[], []⟩).buffer, p u = true := by
  have h0 : chunkInv p ⟨[], []⟩ := by
    refine ⟨List.nodup_nil, ?_, ?_⟩ <;> intro u hu <;> cases hu
  have h := runLoadChunks_inv p schedule reqs ⟨[], []⟩ h0
  exact ⟨h.1, h.2.1⟩

/-- C8: on a channel with a positive limit, aggressive mode with no filter
builds one search descriptor per character of the search string (one per
lowercase letter when it is empty), each with offset 0 and limit 200, and the
number of descriptors is the number of symbols; otherwise exactly one
descriptor is built, with the given filter or a search filter from the search
string, offset 0 and limit 200. -/
theorem C8_channel_request_descriptors (limit : ℤ) (aggressive : Bool)
    (filter : Option PartFilter) (search : String) (h : 0 < limit) :
    (aggressive = true → filter = none →
      (channelInit limit aggressive filter search).requests
          = (if search.isEmpty then asciiLower else search.data).map
              (fun c => { filter := PartFilter.searchQ (String.mk [c]),
                          offset := 0, limit := 200, hash := 0 }) ∧
      (channelInit limit aggressive filter search).requests.length
          = (if search.isEmpty then 26 else search.length)) ∧
    (aggressive = false ∨ filter ≠ none →
      (channelInit limit aggressive filter search).requests
          = [{ filter := filter.getD (.searchQ search), offset := 0,
               limit := 200, hash := 0 }]) := by
  have hlim : ¬ limit ≤ 0 := not_le.mpr h
  have hreq : (channelInit limit aggressive filter search).requests
      = buildChannelRequests aggressive filter search := by
    simp only [channelInit, if_neg hlim]
  constructor
  · intro ha hf
    subst ha; subst hf
    have hagg : (channelInit limit true none search).requests
        = (if search.isEmpty then asciiLower else search.data).map
            (fun c => ({ filter := PartFilter.searchQ (String.mk [c]),
                         offset := 0, limit := 200, hash := 0 } : PartReq)) := by
      rw [hreq]; rfl
    refine ⟨hagg, ?_⟩
    rw [hagg, List.length_map]
    by_cases hs : search.isEmpty
    · rw [if_pos hs, if_pos hs]; rfl
    · rw [if_neg hs, if_neg hs]; rfl
  · intro hor
    rw [hreq]
    have hcond : (aggressive && filter.isNone) = false := by
      rcases hor with ha | hf
      · subst ha; rfl
      · rcases hfv : filter with _ | fv
        · exact absurd hfv hf
        · simp
    rw [buildChannelRequests, hcond]
    rfl

/-- Witness for C8 at limit 5, aggressive with search "ab", and at the
single-descriptor branch with an explicit filter. -/
theorem C8_channel_request_descriptors_witness :
    ((channelInit 5 true none "ab").requests
        = [{ filter := PartFilter.searchQ "a", offset := 0, limit := 200, hash := 0 },
           { filter := PartFilter.searchQ "b", offset := 0, limit := 200, hash := 0 }] ∧
      (channelInit 5 true none "ab").requests.length = 2) ∧
    (channelInit 5 false (some .admins) "").requests
        = [{ filter := PartFilter.admins, offset := 0, limit := 200, hash := 0 }] := by
  constructor
  · have h := (C8_channel_request_descriptors 5 true none "ab" (by decide)).1 rfl rfl
    simpa using h
  · exact (C8_channel_request_descriptors 5 false (some .admins) "" (by decide)).2
      (Or.inl rfl)

/-- C9: an unrecognized string tag, a class passed instead of an instance, and
an object outside the `SendMessageAction` family are each rejected with a
`ValueError` during resolution, before any remote call; recognized tags
resolve through the alias table (the cancel tag to the direct single-shot
request, all others to a controller). -/
theorem C9_action_validation :
    (∀ s : String, strMapping (pyLower s) = none →
        resolveAction (.str s) = .error "No such action") ∧
    resolveAction .klass = .error "You must pass an instance, not the class" ∧
    (∀ n k, n ≠ sendMessageActionId →
        resolveAction (.inst n k) = .error "Cannot use as action") ∧
    resolveAction .outsider = .error "Cannot use as action" ∧
    (∀ s k, strMapping (pyLower s) = some k →
        resolveAction (.str s) =
          if k = .cancel then .ok .directCancel else .ok (.controller k)) := by
  refine ⟨?_, rfl, ?_, rfl, ?_⟩
  · intro s hs; simp [resolveAction, hs]
  · intro n k hn; simp [resolveAction, hn]
  · intro s k hs; simp [resolveAction, hs]

/-- Witness for C9: a misspelled tag is rejected, a foreign instance is
rejected, and the record-voice alias resolves to the record-audio kind. -/
theorem C9_action_validation_witness :
    resolveAction (.str "typingg") = .error "No such action" ∧
    resolveAction (.inst 5 .typing) = .error "Cannot use as action" ∧
    resolveAction (.str "record-voice") = .ok (.controller .recordAudio) := by
  refine ⟨C9_action_validation.1 "typingg" (by decide),
    C9_action_validation.2.2.1 5 .typing (by decide), ?_⟩
  have h := C9_action_validation.2.2.2.2 "record-voice" .recordAudio (by decide)
  simpa using h

/-- C10: scope exit clears the running flag, fully stops the background task,
and produces, in order, the loop stop, then (exactly when auto-cancel is
configured) a single terminal cancel carrying the cancel variant at the
resolved target regardless of the broadcast kind, then the task stop; no
periodic send occurs during exit. -/
theorem C10_exit_protocol (st : ChatActionState) (h : st.hasTask = true) :
    (aexitRun st).1.running = false ∧
    (aexitRun st).1.hasTask = false ∧
    (st.autoCancel = true →
      (aexitRun st).2 = [.loopStopped, .terminalCancel st.chat .cancel, .taskStopped]) ∧
    (st.autoCancel = false → (aexitRun st).2 = [.loopStopped, .taskStopped]) ∧
    ((aexitRun st).2.filter isTerminalCancel).length
        = (if st.autoCancel then 1 else 0) ∧
    (∀ e ∈ (aexitRun st).2, isPeriodicSend e = false) := by
  cases hac : st.autoCancel <;>
    simp [aexitRun, updateOnCancelled, h, hac, isTerminalCancel, isPeriodicSend]

/-- Witness for C10 at a concrete auto-cancel controller state. -/
theorem C10_exit_protocol_witness :
    (aexitRun ⟨7, .typing, true, true, true⟩).1.running = false ∧
    (aexitRun ⟨7, .typing, true, true, true⟩).2
        = [.loopStopped, .terminalCancel 7 .cancel, .taskStopped] := by
  refine ⟨(C10_exit_protocol ⟨7, .typing, true, true, true⟩ rfl).1, ?_⟩
  exact (C10_exit_protocol ⟨7, .typing, true, true, true⟩ rfl).2.2.1 rfl

end TelethonChats
